import Mathlib

/-!
Shallow embedding of the `ai-research-agent` web service (src/main.py) and
proofs about its data model and pipeline.

Python strings are modelled as `List Char` (or Lean `String`, whose carrier is
`List Char`); the regex substitutions, `str.split`, `str.strip` and slicing
operations of the source are translated into executable Lean functions over
`List Char`.  External effects (the Google CSE API, the Hacker News Algolia
API, page fetching, the Gemini LLM) are modelled as oracle arguments: each
oracle yields either a response value or an `Except.error`, the latter
standing for a raised exception that the source catches.  Every embedded
function is total, mirroring the source's try/except structure in which no
exception escapes a pipeline stage.
-/

/-- Python's `\s` character class restricted to ASCII: space, tab, newline,
carriage return, vertical tab and form feed. -/
def is_space (c : Char) : Bool :=
  c == ' ' || c == '\t' || c == '\n' || c == '\r' || c == '\x0b' || c == '\x0c'

/-- Model of `re.sub(r'\s+', ' ', text)` (src/main.py line 311): every maximal
run of whitespace characters is replaced by a single space.  The boolean flag
records whether the scanner is inside a whitespace run whose first character
has already been emitted as the single replacement space. -/
def collapse_go : Bool → List Char → List Char
  | _, [] => []
  | inRun, c :: rest =>
    if is_space c then
      if inRun then collapse_go true rest
      else ' ' :: collapse_go true rest
    else c :: collapse_go false rest

/-- The whitespace-collapsing cleanup `re.sub(r'\s+', ' ', text)` of
`extract_research_content`. -/
def collapse_ws (l : List Char) : List Char :=
  collapse_go false l

/-- Characters emitted by `collapse_go` in in-run state start with a
non-whitespace character (the run's replacement space was already emitted). -/
lemma collapse_go_true_head :
    ∀ (l : List Char) (c : Char), (collapse_go true l).head? = some c → is_space c = false := by
  intro l
  induction l with
  | nil => intro c h; simp [collapse_go] at h
  | cons a rest ih =>
    intro c h
    by_cases ha : is_space a = true
    · rw [collapse_go, if_pos ha] at h
      exact ih c h
    · rw [collapse_go, if_neg ha] at h
      simp at h
      rw [← h]
      simpa using ha

/-- No two adjacent characters of the output of `collapse_go` are both
whitespace. -/
lemma collapse_go_chain (l : List Char) :
    ∀ b, List.Chain' (fun a c => is_space a = false ∨ is_space c = false) (collapse_go b l) := by
  induction l with
  | nil => intro b; simp [collapse_go]
  | cons a rest ih =>
    intro b
    by_cases ha : is_space a = true
    · cases b with
      | true =>
        rw [collapse_go, if_pos ha]
        exact ih true
      | false =>
        rw [collapse_go, if_pos ha]
        refine List.chain'_cons'.mpr ⟨?_, ih true⟩
        intro y hy
        exact Or.inr (collapse_go_true_head rest y hy)
    · rw [collapse_go, if_neg ha]
      refine List.chain'_cons'.mpr ⟨?_, ih false⟩
      intro y _
      exact Or.inl (by simpa using ha)

/-- `collapse_go` is idempotent in each scanner state. -/
lemma collapse_go_idem (l : List Char) :
    ∀ b, collapse_go b (collapse_go b l) = collapse_go b l := by
  induction l with
  | nil => intro b; simp [collapse_go]
  | cons a rest ih =>
    intro b
    by_cases ha : is_space a = true
    · cases b with
      | true =>
        simp [collapse_go, ha]
        exact ih true
      | false =>
        have hsp : is_space ' ' = true := by decide
        simp [collapse_go, ha, hsp]
        exact ih true
    · simp [collapse_go, ha]
      exact ih false

/-- Model of Python `str.strip()`: remove leading and trailing whitespace. -/
def stripL (l : List Char) : List Char :=
  ((l.dropWhile is_space).reverse.dropWhile is_space).reverse

/-- `stripL` lifted to Lean strings. -/
def stripS (s : String) : String :=
  String.mk (stripL s.data)

/-- Model of `sub in hay` (Python substring containment). -/
def contains_sub (sub : List Char) : List Char → Bool
  | [] => sub.isEmpty
  | c :: rest => sub.isPrefixOf (c :: rest) || contains_sub sub rest

/-- Longest prefix of the input strictly before the first occurrence of the
separator; the whole input when the separator does not occur.  This is
`s.split(sep)[0]` in Python. -/
def takeUntil (sep : List Char) : List Char → List Char
  | [] => []
  | c :: rest => if sep.isPrefixOf (c :: rest) then [] else c :: takeUntil sep rest

/-- Suffix of the input immediately after the first occurrence of the
separator, `none` when the separator does not occur.  Combined with
`takeUntil` this models Python's `s.split(sep)[1]`. -/
def dropThrough (sep : List Char) : List Char → Option (List Char)
  | [] => none
  | c :: rest =>
    if sep.isPrefixOf (c :: rest) then some ((c :: rest).drop sep.length)
    else dropThrough sep rest

/-- Model of Python `s.split(sep)` for a single-character separator. -/
def splitChar (sep : Char) : List Char → List (List Char)
  | [] => [[]]
  | c :: rest =>
    if c == sep then [] :: splitChar sep rest
    else
      match splitChar sep rest with
      | [] => [[c]]
      | p :: ps => (c :: p) :: ps

/-- Split at every whitespace character, keeping empty pieces. -/
def split_spaces : List Char → List (List Char)
  | [] => [[]]
  | c :: rest =>
    if is_space c then [] :: split_spaces rest
    else
      match split_spaces rest with
      | [] => [[c]]
      | p :: ps => (c :: p) :: ps

/-- Model of Python `s.split()` with no argument: the maximal non-whitespace
tokens of the string. -/
def ws_tokens (l : List Char) : List (List Char) :=
  (split_spaces l).filter (fun t => !t.isEmpty)

/-- Decimal digit accumulation for `parse_int`. -/
def parse_digits_aux : Nat → List Char → Option Nat
  | acc, [] => some acc
  | acc, c :: rest =>
    if c.isDigit then parse_digits_aux (acc * 10 + (c.toNat - '0'.toNat)) rest
    else none

/-- A non-empty all-digit string parsed as a natural number. -/
def parse_digits : List Char → Option Nat
  | [] => none
  | l => parse_digits_aux 0 l

/-- Model of Python `int(s)` on an already-tokenised string: an optional sign
followed by decimal digits (digit-grouping underscores are not modelled). -/
def parse_int (s : List Char) : Option Int :=
  match s with
  | '+' :: rest => (parse_digits rest).map (fun n => (n : Int))
  | '-' :: rest => (parse_digits rest).map (fun n => -(n : Int))
  | l => (parse_digits l).map (fun n => (n : Int))

/-- Model of `re.sub(r'\n\s*\n', '\n\n', text)` (src/main.py line 310).  A
match starts at a newline; the greedy `\s*` followed by the final `\n` makes
the match extend to the last newline inside the whitespace run that follows;
the match is replaced by two newlines and scanning resumes after it. -/
def sub_nn : List Char → List Char
  | [] => []
  | c :: rest =>
    if c == '\n' then
      let run := rest.takeWhile is_space
      let tail := (run.reverse.takeWhile (fun d => !(d == '\n'))).reverse
      if tail.length < run.length then
        '\n' :: '\n' :: sub_nn (rest.drop (run.length - tail.length))
      else c :: sub_nn rest
    else c :: sub_nn rest
termination_by l => l.length
decreasing_by
  · simp only [List.length_drop, List.length_cons]
    omega
  · simp [List.length_cons]
  · simp [List.length_cons]

/-- Model of Python `text.split('\n\n')`. -/
def splitNN : List Char → List (List Char)
  | [] => [[]]
  | '\n' :: '\n' :: rest => [] :: splitNN rest
  | c :: rest =>
    match splitNN rest with
    | [] => [[c]]
    | p :: ps => (c :: p) :: ps

/-- Model of Python `'\n\n'.join(paragraphs)`. -/
def joinNN : List (List Char) → List Char
  | [] => []
  | [p] => p
  | p :: ps => p ++ '\n' :: '\n' :: joinNN ps

/-- Paragraph selection of `extract_research_content` (src/main.py lines
313-320): keep the stripped paragraphs longer than 100 characters, join the
first 8 of them with blank lines, and otherwise fall back to the first 1000
characters of the cleaned text. -/
def select_paragraphs (text : List Char) : List Char :=
  let paragraphs := ((splitNN text).map stripL).filter (fun p => p.length > 100)
  if paragraphs ≠ [] then joinNN (paragraphs.take 8)
  else text.take 1000

/-- Length limiting of `extract_research_content` (src/main.py lines 322-324):
text longer than 6000 characters is cut to 6000 characters and gets an
ellipsis appended. -/
def truncate6000 (text : List Char) : List Char :=
  if text.length > 6000 then text.take 6000 ++ "...".data
  else text

/-- The search-result dictionaries built by `google_cse_search` and
`fetch_hn_search_results` (keys `title`, `url`, `snippet`, `source`,
`display_url`). -/
structure SearchResult where
  title : String
  url : String
  snippet : String
  source : String
  display_url : String
deriving DecidableEq, Repr

/-- One item of a Google Custom Search response; each field is optional, like
`item.get(...)` in the source. -/
structure GoogleItem where
  title : Option String
  link : Option String
  snippet : Option String
  displayLink : Option String
deriving DecidableEq, Repr

/-- One hit of an Algolia Hacker News response.  `highlightContent` models
`hit["_highlightResult"]["content"]["value"]` when the `content` entry is
present and truthy. -/
structure HNHit where
  title : Option String
  url : Option String
  highlightContent : Option String
deriving DecidableEq, Repr

/-- Parameters of the Google Custom Search request built in
`google_cse_search` (src/main.py lines 202-208); the `cx` engine id comes from
the environment and is not modelled. -/
structure GoogleCSERequest where
  q : String
  num : Nat
  gl : String
  lr : String
deriving DecidableEq, Repr

/-- Parameters of the Hacker News Algolia request built in
`fetch_hn_search_results` (src/main.py lines 231-237). -/
structure HNRequest where
  url : String
  query : String
  hitsPerPage : Nat
  tags : String
  numericFilters : String
deriving DecidableEq, Repr

/-- A search request issued to one of the two backends. -/
inductive SearchRequest where
  | google (r : GoogleCSERequest)
  | hackernews (r : HNRequest)
deriving DecidableEq, Repr

/-- The request `google_cse_search` sends: `q=query, num=num_results, gl="us",
lr="lang_en"`. -/
def google_cse_request (query : String) (num_results : Nat) : GoogleCSERequest :=
  { q := query, num := num_results, gl := "us", lr := "lang_en" }

/-- The request `fetch_hn_search_results` sends to
`http://hn.algolia.com/api/v1/search`. -/
def hn_request (query : String) (limit : Nat) : HNRequest :=
  { url := "http://hn.algolia.com/api/v1/search", query := query,
    hitsPerPage := limit, tags := "story", numericFilters := "points>10" }

/-- `google_cse_search` (src/main.py lines 190-224).  The API call is an
oracle: `Except.error` models a raised exception (caught, logged, empty list
returned), `Except.ok none` a response without an `items` key, and
`Except.ok (some items)` a response with items.  A missing API key or engine
id short-circuits to the empty list. -/
def google_cse_search (query : String) (num_results : Nat) (apiKey cseId : Option String)
    (apiResult : Except String (Option (List GoogleItem))) : List SearchResult :=
  if apiKey = none ∨ cseId = none then []
  else
    match apiResult with
    | Except.error _ => []
    | Except.ok none => []
    | Except.ok (some items) =>
      items.map (fun item =>
        { title := item.title.getD "No title",
          url := item.link.getD "",
          snippet := item.snippet.getD "",
          source := "google",
          display_url := item.displayLink.getD "" })

/-- `fetch_hn_search_results` (src/main.py lines 227-257).  `Except.error`
models a raised exception (caught, logged, empty list returned).  Hits are
kept only when both `title` and `url` are present and truthy (non-empty). -/
def fetch_hn_search_results (query : String) (limit : Nat)
    (apiResult : Except String (List HNHit)) : List SearchResult :=
  match apiResult with
  | Except.error _ => []
  | Except.ok hits =>
    (hits.filter (fun h => (h.title.getD "") != "" && (h.url.getD "") != "")).map (fun h =>
      { title := h.title.getD "",
        url := h.url.getD "",
        snippet :=
          match h.highlightContent with
          | some v => String.mk (v.data.take 200)
          | none => "",
        source := "hackernews",
        display_url := "news.ycombinator.com" })

/-- The deduplication loop of `conduct_research` (src/main.py lines 449-455):
`seen_urls` models the Python set of already-seen URL strings and
`unique_results` the accumulated output, capped at `max_results`. -/
def dedupLoop (max_results : Nat) :
    List SearchResult → List String → List SearchResult → List SearchResult
  | [], _, unique_results => unique_results
  | result :: rest, seen_urls, unique_results =>
    if result.url ∉ seen_urls ∧ unique_results.length < max_results then
      dedupLoop max_results rest (result.url :: seen_urls) (unique_results ++ [result])
    else dedupLoop max_results rest seen_urls unique_results

/-- `conduct_research` (src/main.py lines 434-457): one Google CSE query for
`max_results` results, one Hacker News query for `min 3 (max_results / 2)`
results, concatenation (the source extends only non-empty lists, which is the
same), then URL deduplication capped at `max_results`.  The source's default
for `max_results` is 6, used by the `/research` handler. -/
def conduct_research (query : String) (apiKey cseId : Option String)
    (googleApi : Except String (Option (List GoogleItem)))
    (hnApi : Except String (List HNHit)) (max_results : Nat) : List SearchResult :=
  let google_results := google_cse_search query max_results apiKey cseId googleApi
  let hn_results := fetch_hn_search_results query (min 3 (max_results / 2)) hnApi
  let all_results :=
    (if google_results.isEmpty then [] else google_results) ++
    (if hn_results.isEmpty then [] else hn_results)
  dedupLoop max_results all_results [] []

/-- `google_cse_search` instrumented with the requests it issues: with a
missing API key or engine id the source returns the empty list before
building any request (src/main.py lines 196-198); otherwise it builds and
executes exactly the one request of lines 201-208.  The result component is
the un-instrumented `google_cse_search` (the guard is re-checked there and
agrees, see `google_cse_search_instr_results`). -/
def google_cse_search_instr (query : String) (num_results : Nat) (apiKey cseId : Option String)
    (apiResult : Except String (Option (List GoogleItem))) :
    List SearchRequest × List SearchResult :=
  if apiKey = none ∨ cseId = none then ([], [])
  else ([SearchRequest.google (google_cse_request query num_results)],
        google_cse_search query num_results apiKey cseId apiResult)

/-- `fetch_hn_search_results` instrumented with the one Algolia request it
always issues (src/main.py lines 231-238). -/
def fetch_hn_search_results_instr (query : String) (limit : Nat)
    (apiResult : Except String (List HNHit)) :
    List SearchRequest × List SearchResult :=
  ([SearchRequest.hackernews (hn_request query limit)],
   fetch_hn_search_results query limit apiResult)

/-- `conduct_research` instrumented with the requests its two search calls
issue, in call order (src/main.py lines 439-440); the result component
repeats the combination and deduplication of `conduct_research` and is proved
equal to it in `conduct_research_instr_results`. -/
def conduct_research_instr (query : String) (apiKey cseId : Option String)
    (googleApi : Except String (Option (List GoogleItem)))
    (hnApi : Except String (List HNHit)) (max_results : Nat) :
    List SearchRequest × List SearchResult :=
  let google := google_cse_search_instr query max_results apiKey cseId googleApi
  let hn := fetch_hn_search_results_instr query (min 3 (max_results / 2)) hnApi
  let all_results :=
    (if google.2.isEmpty then [] else google.2) ++
    (if hn.2.isEmpty then [] else hn.2)
  (google.1 ++ hn.1, dedupLoop max_results all_results [] [])

/-- A fetched-and-parsed page, the oracle input of
`extract_research_content`: `rawText` is the result of
`main_content.get_text(separator="\n", strip=True)` after the unwanted
elements were decomposed and the article selector chosen, `title` is
`soup.title.string`, `description` the meta description content, and
`contentSource` the selector that matched (or `"body"`). -/
structure Page where
  rawText : String
  title : Option String
  description : Option String
  contentSource : String
deriving DecidableEq, Repr

/-- The dictionary returned by `extract_research_content`; the failure record
of the source carries no `content_source` key, hence the `Option`. -/
structure ExtractResult where
  title : String
  text : String
  description : String
  content_type : String
  content_source : Option String
  success : Bool
deriving DecidableEq, Repr

/-- `extract_research_content` (src/main.py lines 260-356).  The HTTP GET and
the BeautifulSoup parsing are the oracle: `Except.error e` models any raised
exception (caught; a failure record with `success = False` is returned).  On
success the cleaned text runs through the two regex substitutions, the
paragraph selection and the 6000-character truncation of the source. -/
def extract_research_content (url : String) (fetch : Except String Page) : ExtractResult :=
  match fetch with
  | Except.error e =>
    { title := "Content extraction failed",
      text := "Unable to extract content: " ++ e,
      description := "",
      content_type := "error",
      content_source := none,
      success := false }
  | Except.ok page =>
    let text := truncate6000 (select_paragraphs (collapse_ws (sub_nn page.rawText.data)))
    { title := page.title.getD "No title available",
      text := String.mk text,
      description := page.description.getD "",
      content_type :=
        if [".pdf", ".doc", ".docx"].any (fun x => contains_sub x.data url.data) then "document"
        else if ["github.com", "stackoverflow.com"].any (fun x => contains_sub x.data url.data) then
          "technical"
        else "article",
      content_source := some page.contentSource,
      success := true }

/-- The research prompt of `generate_research_summary` (src/main.py lines
377-392); only the first 5000 characters of the extracted text are embedded. -/
def research_prompt (content_type title text : String) : String :=
  "\n        Analyze this " ++ content_type ++
  " content for research purposes and provide:\n        \n        1. A comprehensive 3-paragraph summary\n        2. 5 key bullet points of main ideas/findings\n        3. Credibility assessment score (1-100)\n        \n        Title: " ++
  title ++ "\n        \n        Content: " ++ String.mk (text.data.take 5000) ++
  "\n        \n        Provide output in this exact format:\n        SUMMARY: [your summary here]\n        KEY_POINTS: [bullet point 1] | [bullet point 2] | [bullet point 3] | [bullet point 4] | [bullet point 5]\n        CREDIBILITY: [score 1-100]\n        "

/-- Summary parsing of `generate_research_summary` (src/main.py lines
402-406): the text between the first `SUMMARY:` and the following
`KEY_POINTS:` (clipped at a second `SUMMARY:`), stripped. -/
def parse_summary (result_text : String) : String :=
  if contains_sub "SUMMARY:".data result_text.data then
    String.mk (stripL (takeUntil "KEY_POINTS:".data
      (takeUntil "SUMMARY:".data ((dropThrough "SUMMARY:".data result_text.data).getD []))))
  else "Analysis unavailable"

/-- Key-point parsing of `generate_research_summary` (src/main.py lines
408-410): the text between `KEY_POINTS:` and `CREDIBILITY:` split at `|`,
each piece stripped, empty pieces dropped, at most five kept. -/
def parse_key_points (result_text : String) : List String :=
  if contains_sub "KEY_POINTS:".data result_text.data then
    let kp_part := stripL (takeUntil "CREDIBILITY:".data
      (takeUntil "KEY_POINTS:".data
        ((dropThrough "KEY_POINTS:".data result_text.data).getD [])))
    (((splitChar '|' kp_part).map (fun kp => String.mk (stripL kp))).filter
      (fun kp => kp != "")).take 5
  else []

/-- Credibility parsing of `generate_research_summary` (src/main.py lines
412-417): the first whitespace token after `CREDIBILITY:` parsed as an
integer and clamped by `min(100, max(1, n))`; every failure (no tag, no
token, unparsable token) keeps the default 50. -/
def parse_credibility (result_text : String) : Int :=
  if contains_sub "CREDIBILITY:".data result_text.data then
    match (ws_tokens (stripL (takeUntil "CREDIBILITY:".data
        ((dropThrough "CREDIBILITY:".data result_text.data).getD [])))).head? with
    | none => 50
    | some tok =>
      match parse_int tok with
      | none => 50
      | some n => min 100 (max 1 n)
  else 50

/-- The dictionary returned by `generate_research_summary`. -/
structure Analysis where
  summary : String
  key_points : List String
  credibility_score : Int
deriving DecidableEq, Repr

/-- `generate_research_summary` (src/main.py lines 359-431).  `geminiKey`
models the presence of `GEMINI_API_KEY`; `llm` is the Gemini oracle, mapping
the prompt to the response text or to a raised exception (`Except.error`,
caught and reported with a zero score). -/
def generate_research_summary (text title content_type : String) (geminiKey : Bool)
    (llm : String → Except String String) : Analysis :=
  if text = "" ∨ (stripS text).length < 100 then
    { summary := "Insufficient content for meaningful analysis.",
      key_points := [], credibility_score := 0 }
  else if geminiKey = false then
    { summary := "API configuration required.",
      key_points := [], credibility_score := 0 }
  else
    match llm (research_prompt content_type title text) with
    | Except.error e =>
      { summary := "Analysis failed: " ++ e,
        key_points := [], credibility_score := 0 }
    | Except.ok result_text =>
      { summary := parse_summary result_text,
        key_points := parse_key_points result_text,
        credibility_score := parse_credibility result_text }

/-- One entry of `analyzed_results` built by the `/research` handler
(src/main.py lines 512-520). -/
structure AnalyzedResult where
  url : String
  title : String
  source : String
  summary : String
  key_points : List String
  credibility_score : Int
  display_url : String
deriving DecidableEq, Repr

/-- An observable step of the `/research` loop: a content extraction for a
result URL, or a `time.sleep` of the given number of milliseconds.  The trace
is a list because the loop runs strictly sequentially. -/
inductive Event where
  | extract (url : String)
  | sleep (ms : Nat)
deriving DecidableEq, Repr

/-- Recogniser for sleep events. -/
def isSleepEvent : Event → Bool
  | Event.sleep _ => true
  | _ => false

/-- The `for` loop of the `/research` handler (src/main.py lines 496-522):
each result's URL is fetched and extracted; on failure the result is skipped
(`continue`); on success it is summarised, appended, and followed by
`time.sleep(1.2)` (1200 ms).  Returns the analyzed results and the event
trace. -/
def analyzeLoop (fetch : String → Except String Page) (geminiKey : Bool)
    (llm : String → Except String String) :
    List SearchResult → List AnalyzedResult × List Event
  | [] => ([], [])
  | result :: rest =>
    let content := extract_research_content result.url (fetch result.url)
    if content.success = false then
      let next := analyzeLoop fetch geminiKey llm rest
      (next.1, Event.extract result.url :: next.2)
    else
      let analysis := generate_research_summary content.text content.title
        content.content_type geminiKey llm
      let next := analyzeLoop fetch geminiKey llm rest
      ({ url := result.url,
         title := content.title,
         source := result.source,
         summary := analysis.summary,
         key_points := analysis.key_points,
         credibility_score := analysis.credibility_score,
         display_url := result.display_url } :: next.1,
       Event.extract result.url :: Event.sleep 1200 :: next.2)

/-- The rendering context handed to `results.html`. -/
structure UIResponse where
  query : String
  error : Option String
  results : List AnalyzedResult
deriving DecidableEq, Repr

/-- The `POST /research` handler `research_ui` (src/main.py lines 478-544):
an empty query or a query whose stripped form has fewer than 2 characters is
rejected with an error page and an empty result list; otherwise
`conduct_research` runs with the default `max_results = 6` and each result is
analyzed by the loop. -/
def research_ui (query : String) (apiKey cseId : Option String)
    (googleApi : Except String (Option (List GoogleItem)))
    (hnApi : Except String (List HNHit))
    (fetch : String → Except String Page) (geminiKey : Bool)
    (llm : String → Except String String) : UIResponse :=
  if query = "" ∨ (stripS query).length < 2 then
    { query := query,
      error := some "Please enter a valid search term (at least 2 characters)",
      results := [] }
  else
    let research_results := conduct_research query apiKey cseId googleApi hnApi 6
    { query := query,
      error := none,
      results := (analyzeLoop fetch geminiKey llm research_results).1 }

/-- Modelled from the spec: the heuristic sentence-extraction summarizer of
the repository's other near-duplicate implementations (the spec's
"first/middle/last sentence selection"), which is not part of src/main.py.
The text is split into sentences at periods and the first, middle and last
sentence are selected. -/
def split_sentences (text : String) : List (List Char) :=
  ((splitChar '.' text.data).map stripL).filter (fun s => !s.isEmpty)

/-- Modelled from the spec: join the selected sentences back into a summary
string. -/
def join_sentences : List (List Char) → List Char
  | [] => []
  | [s] => s ++ ['.']
  | s :: rest => s ++ '.' :: ' ' :: join_sentences rest

/-- Modelled from the spec: the first/middle/last sentence-selection summary.
A text with at most one sentence is its own summary. -/
def heuristic_summary (text : String) : String :=
  let ss := split_sentences text
  match ss with
  | [] => ""
  | [s] => String.mk (s ++ ['.'])
  | _ => String.mk (join_sentences [ss.headD [], ss.getD (ss.length / 2) [], ss.getLastD []])

/-- Modelled from the spec: the summarization step of the repository
("either via a heuristic sentence-extraction algorithm or by calling an
external large-language-model API") — when an LLM response is available it is
the summary, otherwise the sentence-selection heuristic computes it with no
external call. -/
def summarize_step (llm : Option String) (text : String) : String :=
  match llm with
  | some response => response
  | none => heuristic_summary text

/-- A view of `dedupLoop` without the output accumulator, used for the
inductive proofs; `k` stands for the length of the accumulator so far. -/
def uniqueLoop (max_results : Nat) : List String → Nat → List SearchResult → List SearchResult
  | _, _, [] => []
  | seen, k, r :: rest =>
    if r.url ∉ seen ∧ k < max_results then
      r :: uniqueLoop max_results (r.url :: seen) (k + 1) rest
    else uniqueLoop max_results seen k rest

lemma dedupLoop_eq_uniqueLoop (m : Nat) :
    ∀ (l : List SearchResult) (seen : List String) (acc : List SearchResult),
      dedupLoop m l seen acc = acc ++ uniqueLoop m seen acc.length l := by
  intro l
  induction l with
  | nil => intro seen acc; simp [dedupLoop, uniqueLoop]
  | cons r rest ih =>
    intro seen acc
    by_cases h : r.url ∉ seen ∧ acc.length < m
    · rw [dedupLoop, if_pos h, uniqueLoop, if_pos h, ih]
      simp
    · rw [dedupLoop, if_neg h, uniqueLoop, if_neg h, ih]

lemma uniqueLoop_stop (m : Nat) :
    ∀ (l : List SearchResult) (seen : List String) (k : Nat),
      ¬ k < m → uniqueLoop m seen k l = [] := by
  intro l
  induction l with
  | nil => intro seen k _; rfl
  | cons r rest ih =>
    intro seen k h
    rw [uniqueLoop, if_neg (fun hc => h hc.2)]
    exact ih seen k h

lemma uniqueLoop_sublist (m : Nat) :
    ∀ (l : List SearchResult) (seen : List String) (k : Nat),
      List.Sublist (uniqueLoop m seen k l) l := by
  intro l
  induction l with
  | nil => intro _ _; exact List.Sublist.refl []
  | cons r rest ih =>
    intro seen k
    by_cases h : r.url ∉ seen ∧ k < m
    · rw [uniqueLoop, if_pos h]
      exact List.Sublist.cons₂ r (ih _ _)
    · rw [uniqueLoop, if_neg h]
      exact List.Sublist.cons r (ih _ _)

lemma uniqueLoop_find (m : Nat) :
    ∀ (l : List SearchResult) (seen : List String) (k : Nat) (r : SearchResult),
      r ∈ uniqueLoop m seen k l →
      r.url ∉ seen ∧ l.find? (fun x => x.url == r.url) = some r := by
  intro l
  induction l with
  | nil => intro seen k r h; simp [uniqueLoop] at h
  | cons a rest ih =>
    intro seen k r hr
    by_cases h : a.url ∉ seen ∧ k < m
    · rw [uniqueLoop, if_pos h] at hr
      rcases List.mem_cons.mp hr with rfl | hr'
      · exact ⟨h.1, by rw [List.find?_cons_of_pos _ (by simp)]⟩
      · obtain ⟨hn, hf⟩ := ih _ _ _ hr'
        have hne : (a.url == r.url) = false := by
          simp only [beq_eq_false_iff_ne, ne_eq]
          intro he
          exact hn (by simp [← he])
        refine ⟨fun hs => hn (List.mem_cons_of_mem _ hs), ?_⟩
        rw [List.find?_cons]
        simp only [hne]
        exact hf
    · rw [uniqueLoop, if_neg h] at hr
      obtain ⟨hn, hf⟩ := ih _ _ _ hr
      have hne : (a.url == r.url) = false := by
        simp only [beq_eq_false_iff_ne, ne_eq]
        intro he
        rcases not_and_or.mp h with h1 | h2
        · exact hn (he ▸ not_not.mp h1)
        · rw [uniqueLoop_stop m rest seen k h2] at hr
          simp at hr
      refine ⟨hn, ?_⟩
      rw [List.find?_cons]
      simp only [hne]
      exact hf

lemma uniqueLoop_nodup (m : Nat) :
    ∀ (l : List SearchResult) (seen : List String) (k : Nat),
      ((uniqueLoop m seen k l).map (fun r => r.url)).Nodup := by
  intro l
  induction l with
  | nil => intro _ _; simp [uniqueLoop]
  | cons a rest ih =>
    intro seen k
    by_cases h : a.url ∉ seen ∧ k < m
    · rw [uniqueLoop, if_pos h]
      rw [List.map_cons]
      refine List.nodup_cons.mpr ⟨?_, ih _ _⟩
      intro hmem
      obtain ⟨r, hr, hru⟩ := List.mem_map.mp hmem
      exact (uniqueLoop_find m rest _ _ r hr).1 (by simp [hru])
    · rw [uniqueLoop, if_neg h]
      exact ih _ _

lemma uniqueLoop_length (m : Nat) :
    ∀ (l : List SearchResult) (seen : List String) (k : Nat),
      (uniqueLoop m seen k l).length ≤ m - k := by
  intro l
  induction l with
  | nil => intro _ _; simp [uniqueLoop]
  | cons a rest ih =>
    intro seen k
    by_cases h : a.url ∉ seen ∧ k < m
    · rw [uniqueLoop, if_pos h]
      have := ih (a.url :: seen) (k + 1)
      have hk := h.2
      simp only [List.length_cons]
      omega
    · rw [uniqueLoop, if_neg h]
      exact ih _ _

lemma uniqueLoop_split (m : Nat) :
    ∀ (l₁ l₂ : List SearchResult) (seen : List String) (k : Nat),
      ∃ s₁ s₂, uniqueLoop m seen k (l₁ ++ l₂) = s₁ ++ s₂ ∧
        (∀ r ∈ s₁, r ∈ l₁) ∧ (∀ r ∈ s₂, r ∈ l₂) := by
  intro l₁
  induction l₁ with
  | nil =>
    intro l₂ seen k
    exact ⟨[], uniqueLoop m seen k l₂, by simp, by simp,
      fun r hr => (uniqueLoop_sublist m l₂ seen k).subset hr⟩
  | cons a l₁ ih =>
    intro l₂ seen k
    by_cases h : a.url ∉ seen ∧ k < m
    · obtain ⟨s₁, s₂, he, h1, h2⟩ := ih l₂ (a.url :: seen) (k + 1)
      refine ⟨a :: s₁, s₂, ?_, ?_, h2⟩
      · rw [List.cons_append, uniqueLoop, if_pos h, he]
        rfl
      · intro r hr
        rcases List.mem_cons.mp hr with rfl | hr'
        · exact List.mem_cons_self _ _
        · exact List.mem_cons_of_mem _ (h1 r hr')
    · obtain ⟨s₁, s₂, he, h1, h2⟩ := ih l₂ seen k
      refine ⟨s₁, s₂, ?_, fun r hr => List.mem_cons_of_mem a (h1 r hr), h2⟩
      rw [List.cons_append, uniqueLoop, if_neg h]
      exact he

lemma google_cse_search_source (query : String) (n : Nat) (ak ci : Option String)
    (api : Except String (Option (List GoogleItem))) :
    ∀ r ∈ google_cse_search query n ak ci api, r.source = "google" := by
  intro r hr
  by_cases hg : ak = none ∨ ci = none
  · simp [google_cse_search, hg] at hr
  · rcases api with e | oi
    · simp [google_cse_search, hg] at hr
    · rcases oi with _ | items
      · simp [google_cse_search, hg] at hr
      · simp only [google_cse_search, if_neg hg, List.mem_map] at hr
        obtain ⟨item, _, rfl⟩ := hr
        rfl

lemma fetch_hn_search_results_source (query : String) (n : Nat)
    (api : Except String (List HNHit)) :
    ∀ r ∈ fetch_hn_search_results query n api, r.source = "hackernews" := by
  intro r hr
  rcases api with e | hits
  · simp [fetch_hn_search_results] at hr
  · simp only [fetch_hn_search_results, List.mem_map] at hr
    obtain ⟨h, _, rfl⟩ := hr
    rfl

lemma if_isEmpty_self {α : Type} (l : List α) : (if l.isEmpty then ([] : List α) else l) = l := by
  cases l <;> simp

/-- C1: for every query (and any backend responses), `conduct_research`
returns a list whose URL strings are pairwise distinct, whose length is at
most `max_results` (the source's default is 6), in which every returned
result is the first occurrence of its URL in the combined Google-then-Hacker
News candidate list, and in which every Google result appears before every
Hacker News result. -/
theorem conduct_research_spec (query : String) (apiKey cseId : Option String)
    (googleApi : Except String (Option (List GoogleItem)))
    (hnApi : Except String (List HNHit)) (max_results : Nat) :
    ((conduct_research query apiKey cseId googleApi hnApi max_results).map
        (fun r => r.url)).Nodup ∧
    (conduct_research query apiKey cseId googleApi hnApi max_results).length ≤ max_results ∧
    (∀ r ∈ conduct_research query apiKey cseId googleApi hnApi max_results,
      (google_cse_search query max_results apiKey cseId googleApi ++
        fetch_hn_search_results query (min 3 (max_results / 2)) hnApi).find?
          (fun x => x.url == r.url) = some r) ∧
    (∃ og oh, conduct_research query apiKey cseId googleApi hnApi max_results = og ++ oh ∧
      (∀ r ∈ og, r.source = "google") ∧ (∀ r ∈ oh, r.source = "hackernews")) := by
  have hall : conduct_research query apiKey cseId googleApi hnApi max_results =
      uniqueLoop max_results [] 0
        (google_cse_search query max_results apiKey cseId googleApi ++
          fetch_hn_search_results query (min 3 (max_results / 2)) hnApi) := by
    simp only [conduct_research]
    rw [dedupLoop_eq_uniqueLoop, if_isEmpty_self, if_isEmpty_self]
    simp
  refine ⟨?_, ?_, ?_, ?_⟩
  · rw [hall]
    exact uniqueLoop_nodup _ _ _ _
  · rw [hall]
    simpa using uniqueLoop_length max_results
      (google_cse_search query max_results apiKey cseId googleApi ++
        fetch_hn_search_results query (min 3 (max_results / 2)) hnApi) [] 0
  · intro r hr
    rw [hall] at hr
    exact (uniqueLoop_find _ _ _ _ r hr).2
  · rw [hall]
    obtain ⟨s₁, s₂, he, h1, h2⟩ := uniqueLoop_split max_results
      (google_cse_search query max_results apiKey cseId googleApi)
      (fetch_hn_search_results query (min 3 (max_results / 2)) hnApi) [] 0
    exact ⟨s₁, s₂, he,
      fun r hr => google_cse_search_source _ _ _ _ _ r (h1 r hr),
      fun r hr => fetch_hn_search_results_source _ _ _ r (h2 r hr)⟩

/-- A concrete Google item, Hacker News hit and the Google item's result
dictionary, used by witnesses. -/
def sampleGoogleItem : GoogleItem :=
  { title := some "T", link := some "http://a", snippet := some "s",
    displayLink := some "a.com" }

/-- A concrete Hacker News hit for witnesses. -/
def sampleHNHit : HNHit :=
  { title := some "HN", url := some "http://b", highlightContent := none }

/-- The search-result dictionary `google_cse_search` builds from
`sampleGoogleItem`. -/
def sampleGoogleResult : SearchResult :=
  { title := "T", url := "http://a", snippet := "s", source := "google",
    display_url := "a.com" }

/-- Witness for `conduct_research_spec`: its first-occurrence conjunct at a
concrete query, concrete backend responses and a concrete returned result,
the membership hypothesis evaluated. -/
theorem conduct_research_spec_witness :
    (google_cse_search "rust" 6 (some "key") (some "cx")
        (Except.ok (some [sampleGoogleItem])) ++
      fetch_hn_search_results "rust" (min 3 (6 / 2))
        (Except.ok [sampleHNHit])).find?
      (fun x => x.url == sampleGoogleResult.url) = some sampleGoogleResult :=
  (conduct_research_spec "rust" (some "key") (some "cx")
    (Except.ok (some [sampleGoogleItem])) (Except.ok [sampleHNHit]) 6).2.2.1
    sampleGoogleResult (by decide)

/-- Recogniser for Google CSE requests. -/
def isGoogleReq : SearchRequest → Bool
  | SearchRequest.google _ => true
  | _ => false

/-- Recogniser for Hacker News requests. -/
def isHNReq : SearchRequest → Bool
  | SearchRequest.hackernews _ => true
  | _ => false

lemma google_cse_search_instr_results (query : String) (n : Nat) (ak ci : Option String)
    (api : Except String (Option (List GoogleItem))) :
    (google_cse_search_instr query n ak ci api).2 = google_cse_search query n ak ci api := by
  by_cases hg : ak = none ∨ ci = none <;>
    simp [google_cse_search_instr, google_cse_search, hg]

lemma fetch_hn_search_results_instr_results (query : String) (n : Nat)
    (api : Except String (List HNHit)) :
    (fetch_hn_search_results_instr query n api).2 = fetch_hn_search_results query n api :=
  rfl

lemma conduct_research_instr_results (query : String) (ak ci : Option String)
    (gApi : Except String (Option (List GoogleItem))) (hApi : Except String (List HNHit))
    (m : Nat) :
    (conduct_research_instr query ak ci gApi hApi m).2 =
      conduct_research query ak ci gApi hApi m := by
  simp only [conduct_research_instr, conduct_research, google_cse_search_instr_results,
    fetch_hn_search_results_instr_results]

/-- Counterexample to C4 as stated: with `GOOGLE_API_KEY` (and the engine id)
missing, `google_cse_search` returns before building any request
(src/main.py lines 196-198), so `conduct_research` issues zero Google Custom
Search requests for this query — not exactly one. -/
theorem conduct_research_google_request_counterexample :
    ((conduct_research_instr "rust" none none (Except.error "") (Except.error "") 6).1.filter
        isGoogleReq).length = 0 ∧
    ((conduct_research_instr "rust" none none (Except.error "") (Except.error "") 6).1.filter
        isGoogleReq).length ≠ 1 := by
  constructor <;> decide

/-- C4 amended: the instrumented `conduct_research` — whose results are
exactly those of `conduct_research` — queries no backend other than the
Google Custom Search API and the Hacker News Algolia API; it issues exactly
one Hacker News request, asking for `min 3 (max_results / 2)` results, and
exactly one Google Custom Search request, asking for `max_results` results,
when both the API key and the engine id are configured — and none at all when
either is missing. -/
theorem conduct_research_backends (query : String) (apiKey cseId : Option String)
    (googleApi : Except String (Option (List GoogleItem)))
    (hnApi : Except String (List HNHit)) (max_results : Nat) :
    (conduct_research_instr query apiKey cseId googleApi hnApi max_results).2 =
      conduct_research query apiKey cseId googleApi hnApi max_results ∧
    (∀ req ∈ (conduct_research_instr query apiKey cseId googleApi hnApi max_results).1,
      isGoogleReq req = true ∨ isHNReq req = true) ∧
    (conduct_research_instr query apiKey cseId googleApi hnApi max_results).1.filter isHNReq =
      [SearchRequest.hackernews (hn_request query (min 3 (max_results / 2)))] ∧
    (¬ (apiKey = none ∨ cseId = none) →
      (conduct_research_instr query apiKey cseId googleApi hnApi
          max_results).1.filter isGoogleReq =
        [SearchRequest.google (google_cse_request query max_results)]) ∧
    ((apiKey = none ∨ cseId = none) →
      (conduct_research_instr query apiKey cseId googleApi hnApi
          max_results).1.filter isGoogleReq = []) := by
  refine ⟨conduct_research_instr_results query apiKey cseId googleApi hnApi max_results,
    ?_, ?_, ?_, ?_⟩
  all_goals by_cases hg : apiKey = none ∨ cseId = none
  · intro req hreq
    simp [conduct_research_instr, google_cse_search_instr,
      fetch_hn_search_results_instr, hg] at hreq
    rw [hreq]
    exact Or.inr rfl
  · intro req hreq
    simp [conduct_research_instr, google_cse_search_instr,
      fetch_hn_search_results_instr, hg] at hreq
    rcases hreq with hreq | hreq <;> rw [hreq]
    · exact Or.inl rfl
    · exact Or.inr rfl
  · simp [conduct_research_instr, google_cse_search_instr,
      fetch_hn_search_results_instr, hg, List.filter, isHNReq]
  · simp [conduct_research_instr, google_cse_search_instr,
      fetch_hn_search_results_instr, hg, List.filter, isHNReq, isGoogleReq]
  · intro hok
    exact absurd hg hok
  · intro _
    simp [conduct_research_instr, google_cse_search_instr,
      fetch_hn_search_results_instr, hg, List.filter, isGoogleReq, isHNReq]
  · intro _
    simp [conduct_research_instr, google_cse_search_instr,
      fetch_hn_search_results_instr, hg, List.filter, isGoogleReq, isHNReq]
  · intro hmiss
    exact absurd hmiss hg

/-- Witness for `conduct_research_backends`: its configured-keys Google
conjunct at a concrete query and concrete backend responses, the
keys-present hypothesis evaluated. -/
theorem conduct_research_backends_witness :
    (conduct_research_instr "rust" (some "key") (some "cx")
        (Except.ok (some [sampleGoogleItem])) (Except.ok [sampleHNHit])
        6).1.filter isGoogleReq =
      [SearchRequest.google (google_cse_request "rust" 6)] :=
  (conduct_research_backends "rust" (some "key") (some "cx")
      (Except.ok (some [sampleGoogleItem])) (Except.ok [sampleHNHit]) 6).2.2.2.1
    (by decide)

/-- C6: the whitespace-collapsing cleanup `re.sub(r'\s+', ' ', text)` used by
`extract_research_content` yields text with no two adjacent whitespace
characters, and it is idempotent. -/
theorem collapse_ws_spec (l : List Char) :
    List.Chain' (fun a b => is_space a = false ∨ is_space b = false) (collapse_ws l) ∧
    collapse_ws (collapse_ws l) = collapse_ws l :=
  ⟨collapse_go_chain l false, collapse_go_idem l false⟩

/-- C3: every pipeline stage recovers from failure by log-and-skip only: a
raised exception makes `google_cse_search` and `fetch_hn_search_results`
return the empty list, makes `extract_research_content` return a record with
`success = false`, and the `/research` loop skips (contributes no analyzed
result for) any result whose extraction failed.  No exception propagates: in
this embedding every stage is a total function whose error branch returns the
source's fallback value. -/
theorem log_and_skip_error_handling :
    (∀ (query : String) (n : Nat) (ak ci : Option String) (e : String),
      google_cse_search query n ak ci (Except.error e) = []) ∧
    (∀ (query : String) (lim : Nat) (e : String),
      fetch_hn_search_results query lim (Except.error e) = []) ∧
    (∀ (url e : String), (extract_research_content url (Except.error e)).success = false) ∧
    (∀ (fetch : String → Except String Page) (k : Bool) (llm : String → Except String String)
      (r : SearchResult) (rest : List SearchResult),
      (extract_research_content r.url (fetch r.url)).success = false →
      (analyzeLoop fetch k llm (r :: rest)).1 = (analyzeLoop fetch k llm rest).1) := by
  refine ⟨?_, ?_, ?_, ?_⟩
  · intro q n ak ci e
    by_cases hg : ak = none ∨ ci = none <;> simp [google_cse_search, hg]
  · intro q lim e
    rfl
  · intro url e
    rfl
  · intro fetch k llm r rest h
    simp only [analyzeLoop]
    rw [if_pos h]

/-- Witness for `log_and_skip_error_handling`: the loop-skip conjunct at a
concrete failing fetch, the failed-extraction hypothesis evaluated. -/
theorem log_and_skip_error_handling_witness :
    (analyzeLoop (fun _ => Except.error "boom") true (fun _ => Except.ok "ok")
        (sampleGoogleResult :: [])).1 =
      (analyzeLoop (fun _ => Except.error "boom") true (fun _ => Except.ok "ok") []).1 :=
  log_and_skip_error_handling.2.2.2 (fun _ => Except.error "boom") true
    (fun _ => Except.ok "ok") sampleGoogleResult [] (by rfl)

/-- C5: the `/research` loop is a single sequential loop (its embedding emits
a linear event trace) and a fixed `time.sleep(1.2)` — 1200 ms — runs after
each result that is analyzed: the sleep events of the trace are exactly one
1200 ms sleep per analyzed result.  Results whose extraction failed are
skipped without sleeping. -/
theorem research_loop_sleep_trace (fetch : String → Except String Page) (k : Bool)
    (llm : String → Except String String) (rs : List SearchResult) :
    (analyzeLoop fetch k llm rs).2.filter isSleepEvent =
      List.replicate (analyzeLoop fetch k llm rs).1.length (Event.sleep 1200) := by
  induction rs with
  | nil => rfl
  | cons r rest ih =>
    by_cases h : (extract_research_content r.url (fetch r.url)).success = false
    · simp only [analyzeLoop]
      rw [if_pos h]
      simpa [isSleepEvent] using ih
    · simp only [analyzeLoop]
      rw [if_neg h]
      simpa [isSleepEvent, List.replicate_succ] using ih

/-- C9: a query whose stripped form has fewer than 2 characters makes
`POST /research` return the results page with the validation error message
and an empty results list; the right-hand side mentions none of the oracles,
so no search and no content extraction influences the response. -/
theorem short_query_error_page (query : String) (apiKey cseId : Option String)
    (googleApi : Except String (Option (List GoogleItem)))
    (hnApi : Except String (List HNHit)) (fetch : String → Except String Page)
    (k : Bool) (llm : String → Except String String)
    (h : (stripS query).length < 2) :
    research_ui query apiKey cseId googleApi hnApi fetch k llm =
      { query := query,
        error := some "Please enter a valid search term (at least 2 characters)",
        results := [] } := by
  simp only [research_ui]
  rw [if_pos (Or.inr h)]

/-- Witness for `short_query_error_page` at the one-character query `"x"`. -/
theorem short_query_error_page_witness :
    research_ui "x" none none (Except.error "") (Except.error "")
        (fun _ => Except.error "") false (fun _ => Except.error "") =
      { query := "x",
        error := some "Please enter a valid search term (at least 2 characters)",
        results := [] } :=
  short_query_error_page "x" none none (Except.error "") (Except.error "")
    (fun _ => Except.error "") false (fun _ => Except.error "") (by decide)

lemma truncate6000_length (l : List Char) : (truncate6000 l).length ≤ 6003 := by
  unfold truncate6000
  split
  · simp only [List.length_append, List.length_take]
    have h3 : ("...".data).length = 3 := rfl
    rw [h3]
    omega
  · rename_i h
    omega

/-- C10: for every successfully fetched page the `text` field returned by
`extract_research_content` has at most 6003 characters (6000 plus the
appended ellipsis), and the prompt of `generate_research_summary` embeds at
most the first 5000 characters of the text: it is unchanged when the text is
cut to its first 5000 characters. -/
theorem extract_text_length_bound (url : String) (page : Page) (ct ti txt : String) :
    (extract_research_content url (Except.ok page)).text.length ≤ 6003 ∧
    research_prompt ct ti txt = research_prompt ct ti (String.mk (txt.data.take 5000)) := by
  constructor
  · exact truncate6000_length (select_paragraphs (collapse_ws (sub_nn page.rawText.data)))
  · simp [research_prompt, List.take_take]

lemma parse_credibility_cases (r : String) :
    parse_credibility r = 50 ∨ ∃ n : Int, parse_credibility r = min 100 (max 1 n) := by
  unfold parse_credibility
  split
  · split
    · exact Or.inl rfl
    · split
      · exact Or.inl rfl
      · exact Or.inr ⟨_, rfl⟩
  · exact Or.inl rfl

lemma parse_credibility_bounds (r : String) :
    1 ≤ parse_credibility r ∧ parse_credibility r ≤ 100 := by
  rcases parse_credibility_cases r with h | ⟨n, h⟩ <;> rw [h]
  · constructor <;> norm_num
  · exact ⟨le_min (by norm_num) (le_max_left 1 n), min_le_left _ _⟩

/-- A stripped text of more than 100 characters, used as concrete extracted
content by witnesses and counterexamples. -/
def sampleLongText : String :=
  "This sample article text is deliberately longer than one hundred characters so that the summarizer accepts it for analysis."

/-- C8: the credibility score of `generate_research_summary` always lies in
[0, 100]; it is 0 exactly when the text is empty or shorter than 100
characters after stripping, when the Gemini key is absent, or when the LLM
call raises; otherwise it is the default 50 or the parsed integer clamped by
`min 100 (max 1 n)`. -/
theorem credibility_score_range (text title content_type : String) (k : Bool)
    (llm : String → Except String String) :
    0 ≤ (generate_research_summary text title content_type k llm).credibility_score ∧
    (generate_research_summary text title content_type k llm).credibility_score ≤ 100 ∧
    ((generate_research_summary text title content_type k llm).credibility_score = 0 ↔
      (text = "" ∨ (stripS text).length < 100 ∨ k = false ∨
        ∃ e, llm (research_prompt content_type title text) = Except.error e)) ∧
    (∀ r, ¬ (text = "" ∨ (stripS text).length < 100) → k = true →
      llm (research_prompt content_type title text) = Except.ok r →
      (generate_research_summary text title content_type k llm).credibility_score = 50 ∨
      ∃ n : Int, (generate_research_summary text title content_type k llm).credibility_score =
        min 100 (max 1 n)) := by
  by_cases hshort : text = "" ∨ (stripS text).length < 100
  · have hs : (generate_research_summary text title content_type k llm).credibility_score = 0 := by
      simp [generate_research_summary, hshort]
    refine ⟨by rw [hs], by rw [hs]; norm_num, ?_, ?_⟩
    · rw [hs]
      refine iff_of_true rfl ?_
      rcases hshort with h | h
      · exact Or.inl h
      · exact Or.inr (Or.inl h)
    · intro r hn _ _
      exact absurd hshort hn
  · by_cases hk : k = false
    · have hs : (generate_research_summary text title content_type k llm).credibility_score = 0 := by
        simp [generate_research_summary, hshort, hk]
      refine ⟨by rw [hs], by rw [hs]; norm_num, ?_, ?_⟩
      · rw [hs]
        exact iff_of_true rfl (Or.inr (Or.inr (Or.inl hk)))
      · intro r hn hkt hok
        rw [hkt] at hk
        exact absurd hk (by simp)
    · have hk' : k = true := by
        cases k
        · exact absurd rfl hk
        · rfl
      subst hk'
      cases hllm : llm (research_prompt content_type title text) with
      | error e =>
        have hs : (generate_research_summary text title content_type true llm).credibility_score
            = 0 := by
          simp [generate_research_summary, hshort, hllm]
        refine ⟨by rw [hs], by rw [hs]; norm_num, ?_, ?_⟩
        · rw [hs]
          exact iff_of_true rfl (Or.inr (Or.inr (Or.inr ⟨e, rfl⟩)))
        · intro r _ _ hok
          simp at hok
      | ok r =>
        have hs : (generate_research_summary text title content_type true llm).credibility_score
            = parse_credibility r := by
          simp [generate_research_summary, hshort, hllm]
        have hb := parse_credibility_bounds r
        refine ⟨?_, ?_, ?_, ?_⟩
        · rw [hs]
          exact le_trans (by norm_num) hb.1
        · rw [hs]
          exact hb.2
        · rw [hs]
          refine iff_of_false ?_ ?_
          · intro h0
            rw [h0] at hb
            exact absurd hb.1 (by norm_num)
          · rintro (h | h | h | ⟨e, he⟩)
            · exact hshort (Or.inl h)
            · exact hshort (Or.inr h)
            · exact absurd h (by simp)
            · simp at he
        · intro r' _ _ hok
          injection hok with hrr
          subst hrr
          rw [hs]
          exact parse_credibility_cases r

set_option maxRecDepth 8192 in
/-- Witness for `credibility_score_range`: its main-path conjunct at concrete
content of more than 100 characters, a present key and a concrete LLM
response, the hypotheses evaluated. -/
theorem credibility_score_range_witness :
    (generate_research_summary sampleLongText "T" "article" true
        (fun _ => Except.ok "CREDIBILITY: 90")).credibility_score = 50 ∨
    ∃ n : Int, (generate_research_summary sampleLongText "T" "article" true
        (fun _ => Except.ok "CREDIBILITY: 90")).credibility_score = min 100 (max 1 n) :=
  (credibility_score_range sampleLongText "T" "article" true
      (fun _ => Except.ok "CREDIBILITY: 90")).2.2.2 "CREDIBILITY: 90"
    (by decide) rfl rfl

set_option maxRecDepth 8192 in
/-- Counterexample to C7 as stated for src/main.py: with identical extracted
content (hence identical string lengths), two different external LLM
responses yield different summaries and different credibility scores, so
neither value is a locally computed function of the extracted content's
string lengths — on the main path both come from the external LLM. -/
theorem summary_external_dependence_counterexample :
    (generate_research_summary sampleLongText "T" "article" true
        (fun _ => Except.ok "SUMMARY: alpha KEY_POINTS: CREDIBILITY: 90")).summary ≠
      (generate_research_summary sampleLongText "T" "article" true
        (fun _ => Except.ok "SUMMARY: beta KEY_POINTS: CREDIBILITY: 10")).summary ∧
    (generate_research_summary sampleLongText "T" "article" true
        (fun _ => Except.ok "SUMMARY: alpha KEY_POINTS: CREDIBILITY: 90")).credibility_score ≠
      (generate_research_summary sampleLongText "T" "article" true
        (fun _ => Except.ok "SUMMARY: beta KEY_POINTS: CREDIBILITY: 10")).credibility_score := by
  constructor <;> decide

/-- C7 amended: the summary and credibility score are computed locally by
fixed rules only on the degenerate paths — content empty or shorter than 100
characters after stripping (a string-length test), missing API key, or a
failed LLM call — where the score is 0 and the summary a fixed message; on
the main path both are taken from the external LLM's response, on which alone
they depend. -/
theorem generate_summary_branches :
    (∀ (t ti ct : String) (k : Bool) (llm : String → Except String String),
      (t = "" ∨ (stripS t).length < 100) →
      generate_research_summary t ti ct k llm =
        { summary := "Insufficient content for meaningful analysis.",
          key_points := [], credibility_score := 0 }) ∧
    (∀ (t ti ct : String) (llm : String → Except String String),
      ¬ (t = "" ∨ (stripS t).length < 100) →
      generate_research_summary t ti ct false llm =
        { summary := "API configuration required.",
          key_points := [], credibility_score := 0 }) ∧
    (∀ (t ti ct e : String) (llm : String → Except String String),
      ¬ (t = "" ∨ (stripS t).length < 100) →
      llm (research_prompt ct ti t) = Except.error e →
      generate_research_summary t ti ct true llm =
        { summary := "Analysis failed: " ++ e,
          key_points := [], credibility_score := 0 }) ∧
    (∀ (t₁ t₂ ti₁ ti₂ ct₁ ct₂ r : String),
      ¬ (t₁ = "" ∨ (stripS t₁).length < 100) →
      ¬ (t₂ = "" ∨ (stripS t₂).length < 100) →
      generate_research_summary t₁ ti₁ ct₁ true (fun _ => Except.ok r) =
        generate_research_summary t₂ ti₂ ct₂ true (fun _ => Except.ok r)) := by
  refine ⟨?_, ?_, ?_, ?_⟩
  · intro t ti ct k llm h
    simp [generate_research_summary, h]
  · intro t ti ct llm h
    simp [generate_research_summary, h]
  · intro t ti ct e llm h hllm
    simp [generate_research_summary, h, hllm]
  · intro t₁ t₂ ti₁ ti₂ ct₁ ct₂ r h1 h2
    simp [generate_research_summary, h1, h2]

set_option maxRecDepth 8192 in
/-- Witness for `generate_summary_branches`: its main-path conjunct at two
different concrete contents and the same LLM response, the length hypotheses
evaluated. -/
theorem generate_summary_branches_witness :
    generate_research_summary sampleLongText "T1" "article" true
        (fun _ => Except.ok "SUMMARY: s KEY_POINTS: k CREDIBILITY: 42") =
      generate_research_summary (sampleLongText ++ " More words.") "T2" "technical" true
        (fun _ => Except.ok "SUMMARY: s KEY_POINTS: k CREDIBILITY: 42") :=
  generate_summary_branches.2.2.2 sampleLongText (sampleLongText ++ " More words.")
    "T1" "T2" "article" "technical" "SUMMARY: s KEY_POINTS: k CREDIBILITY: 42"
    (by decide) (by decide)

/-- C2: the repository's summarization step produces the summary either via
the first/middle/last sentence-selection heuristic or via the external LLM
API; in particular, with no LLM response available, the summary of a concrete
five-sentence text is computed by the heuristic — its first, middle and last
sentences — with no LLM involved. -/
theorem summarize_step_heuristic :
    summarize_step none
        "Alpha is first. Beta comes second. Gamma is third. Delta is fourth. Epsilon ends." =
      "Alpha is first. Gamma is third. Epsilon ends." ∧
    (∀ (response text : String), summarize_step (some response) text = response) := by
  exact ⟨by decide, fun r t => rfl⟩
